import Mathlib

/-!
Shallow embedding of the external-dependency health-check orchestrator of
`src/plugins/devtools-backend/src/api/DevToolsBackendApi.ts`.

The network is modelled explicitly: an HTTP GET either yields a response with
a numeric status code or fails at the transport level with an error message;
a ping probe either resolves to a probe result `{alive, packetLoss, output}`
or rejects with an error message.  A rejected promise that is `await`ed with
no surrounding `try`/`catch` is modelled by `Except.error` propagation.
-/

/-- An `Endpoint` record from configuration: `{ name, type, target }`.
The `type` field is an arbitrary string in the source (`endpoint.type` is
switched on with a `default` branch). -/
structure Endpoint where
  name : String
  type : String
  target : String
  deriving DecidableEq, Repr

/-- The output record `ExternalDependency`: `{ name, type, target, status,
error? }`.  `status` is one of the string literals `"Healthy"` /
`"Unhealthy"`; `error` is an optional string (`undefined` = `none`). -/
structure ExternalDependency where
  name : String
  type : String
  target : String
  status : String
  error : Option String
  deriving DecidableEq, Repr

/-- Outcome of the single `fetch(endpoint.target)` call: either the promise
resolves with a response carrying a status code, or it rejects with a
transport-level `Error` whose `message` is recorded. -/
inductive FetchOutcome where
  | response (status : Nat)
  | failure (message : String)
  deriving DecidableEq, Repr

/-- The resolved value of `ping.promise.probe(endpoint.target)`:
`alive : bool`, `packetLoss : string` (a numeric string such as `"100.000"`
or the literal `"unknown"`), and `output : string` (raw diagnostic text). -/
structure PingProbeResult where
  alive : Bool
  packetLoss : String
  output : String
  deriving DecidableEq, Repr

/-- The external world seen by one orchestration run: what the HTTP GET of
each endpoint's target does, and what the ping probe of each endpoint's
target does.  A ping probe may itself reject (`Except.error`). -/
structure World where
  fetchOutcome : Endpoint → FetchOutcome
  pingOutcome : Endpoint → Except String PingProbeResult

/-- `fetchExternalDependency` (lines 84–111 of the source).  The `status`
local is set only in the `.then` branch (`res.status === 200 ? 'Healthy' :
'Unhealthy'`); the `error` local only in the `.catch` branch
(`err.message`).  The record then uses `status ?? 'Unhealthy'` and
`error ?? undefined`.  The `.catch` handles every transport failure, so this
checker never rejects. -/
def fetchExternalDependency (endpoint : Endpoint) (outcome : FetchOutcome) :
    ExternalDependency :=
  let status : Option String :=
    match outcome with
    | FetchOutcome.response s => some (if s = 200 then "Healthy" else "Unhealthy")
    | FetchOutcome.failure _ => none
  let error : Option String :=
    match outcome with
    | FetchOutcome.response _ => none
    | FetchOutcome.failure message => some message
  { name := endpoint.name
    type := endpoint.type
    target := endpoint.target
    status := status.getD "Unhealthy"
    error := error }

/-- `pingExternalDependency` (lines 113–143 of the source).  The call
`await ping.promise.probe(endpoint.target)` has no `try`/`catch`, so a
rejecting probe propagates out of the method (`Except.error`).  When the
probe resolves: `error` is set iff `packetLoss === '100.000' ||
packetLoss === 'unknown'`, to `output`, or to `` `${target} - Unknown` ``
when `output` is the empty string; `status` is `alive ? 'Healthy' :
'Unhealthy'`. -/
def pingExternalDependency (endpoint : Endpoint)
    (probe : Except String PingProbeResult) :
    Except String ExternalDependency :=
  match probe with
  | Except.error e => Except.error e
  | Except.ok pingResult =>
    let error : Option String :=
      if pingResult.packetLoss = "100.000" ∨ pingResult.packetLoss = "unknown"
      then some (if pingResult.output = ""
                 then endpoint.target ++ " - Unknown"
                 else pingResult.output)
      else none
    Except.ok
      { name := endpoint.name
        type := endpoint.type
        target := endpoint.target
        status := if pingResult.alive then "Healthy" else "Unhealthy"
        error := error }

/-- The `for (const endpoint of endpoints)` loop of
`listExternalDependencyDetails` (lines 60–79).  `switch (endpoint.type)`
dispatches: `'ping'` → ping checker (whose rejection, being `await`ed
uncaught, aborts the whole run), `'fetch'` → fetch checker, and the
`default` branch returns the results accumulated so far, never reaching the
remaining endpoints. -/
def processEndpoints (world : World) :
    List Endpoint → Except String (List ExternalDependency)
  | [] => Except.ok []
  | endpoint :: rest =>
    if endpoint.type = "ping" then
      match pingExternalDependency endpoint (world.pingOutcome endpoint) with
      | Except.error msg => Except.error msg
      | Except.ok r =>
        match processEndpoints world rest with
        | Except.error msg => Except.error msg
        | Except.ok rs => Except.ok (r :: rs)
    else if endpoint.type = "fetch" then
      match processEndpoints world rest with
      | Except.error msg => Except.error msg
      | Except.ok rs =>
        Except.ok (fetchExternalDependency endpoint (world.fetchOutcome endpoint) :: rs)
    else
      Except.ok []

/-- `listExternalDependencyDetails` (lines 50–82).  The argument models
`config.getOptional<Endpoint[]>('devTools.externalDependencies.endpoints')`:
`none` when the key is absent.  `if (!endpoints) return result` returns the
empty list for an absent key; an empty configured array is truthy in
JavaScript and simply drives the loop zero times, also yielding `[]`. -/
def listExternalDependencyDetails (world : World)
    (endpoints : Option (List Endpoint)) :
    Except String (List ExternalDependency) :=
  match endpoints with
  | none => Except.ok []
  | some eps => processEndpoints world eps

/-! ## Helper lemmas and sample data -/

/-- Unfolding lemma: the record the ping checker returns when the probe
resolves. -/
theorem pingExternalDependency_ok (endpoint : Endpoint) (pr : PingProbeResult) :
    pingExternalDependency endpoint (Except.ok pr) = Except.ok
      { name := endpoint.name
        type := endpoint.type
        target := endpoint.target
        status := if pr.alive then "Healthy" else "Unhealthy"
        error := if pr.packetLoss = "100.000" ∨ pr.packetLoss = "unknown"
                 then some (if pr.output = ""
                            then endpoint.target ++ " - Unknown"
                            else pr.output)
                 else none } :=
  rfl

/-- A concrete external world used by witnesses: every fetch answers 200 and
every ping probe resolves alive with no packet loss. -/
def sampleWorld : World where
  fetchOutcome := fun _ => FetchOutcome.response 200
  pingOutcome := fun _ => Except.ok ⟨true, "0.000", "64 bytes received"⟩

/-! ## Claims -/

/-- Claim C9: when the configured endpoint list is absent (`none`) or empty,
the orchestrator returns an empty output list immediately, without error. -/
theorem c9_empty_or_absent_config_yields_empty (world : World) :
    listExternalDependencyDetails world none = Except.ok [] ∧
    listExternalDependencyDetails world (some []) = Except.ok [] :=
  ⟨rfl, rfl⟩

/-- Claim C5: for a fetch endpoint whose GET completes with a response, the
status is `"Healthy"` exactly for status code 200 and `"Unhealthy"` for any
other code, and in both cases `error` is absent. -/
theorem c5_fetch_status_classification (endpoint : Endpoint) (s : Nat) :
    (fetchExternalDependency endpoint (FetchOutcome.response s)).status
      = (if s = 200 then "Healthy" else "Unhealthy") ∧
    (fetchExternalDependency endpoint (FetchOutcome.response s)).error = none := by
  constructor <;> simp [fetchExternalDependency]

/-- Claim C3, counterexample: when the underlying probe mechanism itself
fails, `pingExternalDependency` does not return any record at all — the
failure propagates (there is no `try`/`catch` around
`ping.promise.probe`), contradicting the claim that a probe failure is
converted into an `Unhealthy` record. -/
theorem c3_counterexample :
    pingExternalDependency ⟨"svc", "ping", "bad host"⟩
        (Except.error "probe spawn failed")
      = Except.error "probe spawn failed" ∧
    (pingExternalDependency ⟨"svc", "ping", "bad host"⟩
        (Except.error "probe spawn failed")).toOption = none :=
  ⟨rfl, rfl⟩

/-- Claim C3 amended: a failure of the probe mechanism itself is NOT caught
by the ping checker: it propagates unchanged out of `pingExternalDependency`
(and hence out of the orchestrator), and no record is produced; only a probe
that resolves yields a record. -/
theorem c3_amended_probe_failure_propagates (endpoint : Endpoint) (msg : String) :
    pingExternalDependency endpoint (Except.error msg) = Except.error msg :=
  rfl

/-- Claim C7: for a ping endpoint whose probe completes, the result's status
is `"Healthy"` iff the probe's `alive` flag is true, and `"Unhealthy"`
otherwise, independently of the packet-loss/error computation (`packetLoss`
and `output` are unconstrained here). -/
theorem c7_ping_status_iff_alive (endpoint : Endpoint) (pr : PingProbeResult)
    (r : ExternalDependency)
    (h : pingExternalDependency endpoint (Except.ok pr) = Except.ok r) :
    (r.status = "Healthy" ↔ pr.alive = true) ∧
    (pr.alive = false → r.status = "Unhealthy") := by
  rw [pingExternalDependency_ok, Except.ok.injEq] at h
  subst h
  cases hA : pr.alive <;> simp [hA]

/-- Claim C7 witness: a concrete alive probe yields a `"Healthy"` record. -/
theorem c7_witness :
    ((ExternalDependency.status
        ⟨"svc", "ping", "10.0.0.1", "Healthy", none⟩ = "Healthy") ↔
      (PingProbeResult.alive ⟨true, "0.000", "64 bytes"⟩ = true)) ∧
    (PingProbeResult.alive ⟨true, "0.000", "64 bytes"⟩ = false →
      ExternalDependency.status
        ⟨"svc", "ping", "10.0.0.1", "Healthy", none⟩ = "Unhealthy") :=
  c7_ping_status_iff_alive ⟨"svc", "ping", "10.0.0.1"⟩ ⟨true, "0.000", "64 bytes"⟩
    ⟨"svc", "ping", "10.0.0.1", "Healthy", none⟩ rfl

/-- Claim C6: for a ping endpoint whose probe completes, `error` is set iff
`packetLoss` is `"100.000"` or `"unknown"`; in that case it is the probe
`output`, or `"<target> - Unknown"` when `output` is empty — regardless of
`alive`. -/
theorem c6_ping_error_assignment (endpoint : Endpoint) (pr : PingProbeResult)
    (r : ExternalDependency)
    (h : pingExternalDependency endpoint (Except.ok pr) = Except.ok r) :
    ((pr.packetLoss = "100.000" ∨ pr.packetLoss = "unknown") →
      r.error = some (if pr.output = ""
                      then endpoint.target ++ " - Unknown"
                      else pr.output)) ∧
    (¬(pr.packetLoss = "100.000" ∨ pr.packetLoss = "unknown") →
      r.error = none) := by
  rw [pingExternalDependency_ok, Except.ok.injEq] at h
  subst h
  constructor <;> intro hpl <;> simp [hpl]

/-- Claim C6 witness: total packet loss with empty probe output puts the
fallback string `"10.0.0.1 - Unknown"` in the record's `error`, even though
`alive` is true. -/
theorem c6_witness :
    ((PingProbeResult.packetLoss ⟨true, "100.000", ""⟩ = "100.000" ∨
      PingProbeResult.packetLoss ⟨true, "100.000", ""⟩ = "unknown") →
      ExternalDependency.error
          ⟨"svc", "ping", "10.0.0.1", "Healthy", some "10.0.0.1 - Unknown"⟩
        = some (if PingProbeResult.output ⟨true, "100.000", ""⟩ = ""
                then Endpoint.target ⟨"svc", "ping", "10.0.0.1"⟩ ++ " - Unknown"
                else PingProbeResult.output ⟨true, "100.000", ""⟩)) ∧
    (¬(PingProbeResult.packetLoss ⟨true, "100.000", ""⟩ = "100.000" ∨
       PingProbeResult.packetLoss ⟨true, "100.000", ""⟩ = "unknown") →
      ExternalDependency.error
          ⟨"svc", "ping", "10.0.0.1", "Healthy", some "10.0.0.1 - Unknown"⟩
        = none) :=
  c6_ping_error_assignment ⟨"svc", "ping", "10.0.0.1"⟩ ⟨true, "100.000", ""⟩
    ⟨"svc", "ping", "10.0.0.1", "Healthy", some "10.0.0.1 - Unknown"⟩ rfl

/-- Claim C10: whenever the ping checker populates `error`, the string is
non-empty: an empty probe `output` is replaced by `"<target> - Unknown"`,
and otherwise `error` is the non-empty `output` itself. -/
theorem c10_ping_error_nonempty (endpoint : Endpoint) (pr : PingProbeResult)
    (r : ExternalDependency) (s : String)
    (h : pingExternalDependency endpoint (Except.ok pr) = Except.ok r)
    (he : r.error = some s) : s ≠ "" := by
  rw [pingExternalDependency_ok, Except.ok.injEq] at h
  subst h
  by_cases hpl : pr.packetLoss = "100.000" ∨ pr.packetLoss = "unknown"
  · simp only [hpl, if_true] at he
    by_cases ho : pr.output = ""
    · simp only [ho, if_true, Option.some.injEq] at he
      intro hs
      have hlen := congrArg String.length (he.trans hs)
      rw [String.length_append] at hlen
      simp at hlen
      exact absurd hlen.2 (by decide)
    · simp only [ho, if_false, Option.some.injEq] at he
      exact he ▸ ho
  · simp [hpl] at he

/-- Claim C10 witness: the fallback error string of a concrete failed probe
is non-empty. -/
theorem c10_witness : ("10.0.0.1 - Unknown" : String) ≠ "" :=
  c10_ping_error_nonempty ⟨"svc", "ping", "10.0.0.1"⟩ ⟨false, "100.000", ""⟩
    ⟨"svc", "ping", "10.0.0.1", "Unhealthy", some "10.0.0.1 - Unknown"⟩
    "10.0.0.1 - Unknown" rfl rfl

/-- Claim C2, counterexample: the ping checker sets `error` from
`packetLoss` independently of `alive`, so a probe reporting `alive = true`
together with `packetLoss = "100.000"` produces a record with
`status = "Healthy"` AND `error` present — violating the claimed invariant
that `error` is absent whenever `status = "Healthy"`. -/
theorem c2_counterexample :
    (pingExternalDependency ⟨"svc", "ping", "10.0.0.1"⟩
        (Except.ok ⟨true, "100.000", "partial loss"⟩)).toOption.map
      ExternalDependency.status = some "Healthy" ∧
    (pingExternalDependency ⟨"svc", "ping", "10.0.0.1"⟩
        (Except.ok ⟨true, "100.000", "partial loss"⟩)).toOption.map
      ExternalDependency.error = some (some "partial loss") :=
  ⟨rfl, rfl⟩

/-- Claim C2 amended: every fetch record satisfies the invariant (`error`
present only when `status = "Unhealthy"`, absent when `"Healthy"`); a ping
record satisfies it whenever the probe does not report `alive = true`
together with `packetLoss` `"100.000"` or `"unknown"` — in that remaining
case the record is `"Healthy"` with `error` present. -/
theorem c2_error_only_when_unhealthy :
    (∀ (endpoint : Endpoint) (outcome : FetchOutcome),
      ((fetchExternalDependency endpoint outcome).error ≠ none →
        (fetchExternalDependency endpoint outcome).status = "Unhealthy") ∧
      ((fetchExternalDependency endpoint outcome).status = "Healthy" →
        (fetchExternalDependency endpoint outcome).error = none)) ∧
    (∀ (endpoint : Endpoint) (pr : PingProbeResult) (r : ExternalDependency),
      pingExternalDependency endpoint (Except.ok pr) = Except.ok r →
      (pr.alive = false ∨
        (pr.packetLoss ≠ "100.000" ∧ pr.packetLoss ≠ "unknown")) →
      (r.error ≠ none → r.status = "Unhealthy") ∧
      (r.status = "Healthy" → r.error = none)) := by
  constructor
  · intro endpoint outcome
    cases outcome with
    | response s =>
      constructor <;> simp [fetchExternalDependency]
    | failure m =>
      constructor <;> simp [fetchExternalDependency]
  · intro endpoint pr r h hside
    rw [pingExternalDependency_ok, Except.ok.injEq] at h
    subst h
    rcases hside with hA | ⟨h1, h2⟩
    · constructor <;> simp [hA]
    · have : ¬(pr.packetLoss = "100.000" ∨ pr.packetLoss = "unknown") := by
        simp [h1, h2]
      constructor <;> simp [this]

/-- Claim C2 amended, witness: a dead probe with total loss yields an
`"Unhealthy"` record whose populated `error` respects the invariant. -/
theorem c2_witness :
    (ExternalDependency.error
        ⟨"svc", "ping", "10.0.0.2", "Unhealthy", some "no reply"⟩ ≠ none →
      ExternalDependency.status
        ⟨"svc", "ping", "10.0.0.2", "Unhealthy", some "no reply"⟩
        = "Unhealthy") ∧
    (ExternalDependency.status
        ⟨"svc", "ping", "10.0.0.2", "Unhealthy", some "no reply"⟩
        = "Healthy" →
      ExternalDependency.error
        ⟨"svc", "ping", "10.0.0.2", "Unhealthy", some "no reply"⟩ = none) :=
  c2_error_only_when_unhealthy.2 ⟨"svc", "ping", "10.0.0.2"⟩
    ⟨false, "100.000", "no reply"⟩
    ⟨"svc", "ping", "10.0.0.2", "Unhealthy", some "no reply"⟩ rfl (Or.inl rfl)

/-- Claim C8: for a fetch endpoint whose GET fails at the transport level,
the checker catches the failure (no rejection is possible by construction:
it returns a plain record) and yields `status = "Unhealthy"` with `error`
equal to the failure's message; the stored `error` is non-empty whenever the
underlying message is. -/
theorem c8_fetch_transport_failure (endpoint : Endpoint) (message : String) :
    (fetchExternalDependency endpoint (FetchOutcome.failure message)).status
      = "Unhealthy" ∧
    (fetchExternalDependency endpoint (FetchOutcome.failure message)).error
      = some message ∧
    (message ≠ "" →
      (fetchExternalDependency endpoint (FetchOutcome.failure message)).error
        ≠ some "") := by
  refine ⟨rfl, rfl, ?_⟩
  intro hm
  simp [fetchExternalDependency, hm]

/-- Claim C8 witness: a concrete refused connection yields an `"Unhealthy"`
record carrying the non-empty failure message. -/
theorem c8_witness :
    (fetchExternalDependency ⟨"svc", "fetch", "http://down.example"⟩
        (FetchOutcome.failure "connect ECONNREFUSED")).status = "Unhealthy" ∧
    (fetchExternalDependency ⟨"svc", "fetch", "http://down.example"⟩
        (FetchOutcome.failure "connect ECONNREFUSED")).error
      = some "connect ECONNREFUSED" ∧
    (("connect ECONNREFUSED" : String) ≠ "" →
      (fetchExternalDependency ⟨"svc", "fetch", "http://down.example"⟩
          (FetchOutcome.failure "connect ECONNREFUSED")).error ≠ some "") :=
  c8_fetch_transport_failure ⟨"svc", "fetch", "http://down.example"⟩
    "connect ECONNREFUSED"

/-- Claim C1: an endpoint whose `type` is neither `"ping"` nor `"fetch"`
makes the orchestrator stop there: the run over `pre ++ bad :: post` returns
exactly what the run over `pre` alone returns — the endpoints after the
unrecognized one are never processed and contribute nothing. -/
theorem c1_unknown_type_truncates (world : World) (pre : List Endpoint)
    (bad : Endpoint) (post : List Endpoint)
    (h1 : bad.type ≠ "ping") (h2 : bad.type ≠ "fetch") :
    listExternalDependencyDetails world (some (pre ++ bad :: post))
      = listExternalDependencyDetails world (some pre) := by
  induction pre with
  | nil =>
    simp [listExternalDependencyDetails, processEndpoints, h1, h2]
  | cons e rest ih =>
    simp only [listExternalDependencyDetails] at ih ⊢
    simp only [List.cons_append, processEndpoints, List.append_eq]
    rw [ih]

/-- Claim C1 witness: with `[A(ping), B(unknown), C(fetch)]` the run stops
at `B` and equals the run over `[A]` alone. -/
theorem c1_witness :
    listExternalDependencyDetails sampleWorld
        (some [⟨"A", "ping", "10.0.0.1"⟩, ⟨"B", "smoke-signal", "hilltop"⟩,
               ⟨"C", "fetch", "http://c.example"⟩])
      = listExternalDependencyDetails sampleWorld
          (some [⟨"A", "ping", "10.0.0.1"⟩]) :=
  c1_unknown_type_truncates sampleWorld [⟨"A", "ping", "10.0.0.1"⟩]
    ⟨"B", "smoke-signal", "hilltop"⟩ [⟨"C", "fetch", "http://c.example"⟩]
    (by decide) (by decide)

/-- If every endpoint has a recognized type and every ping probe resolves,
the run succeeds and the outputs correspond pointwise (same position, same
`name`/`type`/`target`) to the inputs. -/
theorem processEndpoints_forall2 (world : World) (eps : List Endpoint)
    (h1 : ∀ e ∈ eps, e.type = "ping" ∨ e.type = "fetch")
    (h2 : ∀ e ∈ eps, e.type = "ping" → (world.pingOutcome e).toOption.isSome = true) :
    ∃ rs, processEndpoints world eps = Except.ok rs ∧
      List.Forall₂
        (fun (e : Endpoint) (r : ExternalDependency) =>
          r.name = e.name ∧ r.type = e.type ∧ r.target = e.target) eps rs := by
  induction eps with
  | nil => exact ⟨[], rfl, List.Forall₂.nil⟩
  | cons e rest ih =>
    obtain ⟨rs, hrs, hf⟩ :=
      ih (fun x hx => h1 x (List.mem_cons_of_mem _ hx))
        (fun x hx => h2 x (List.mem_cons_of_mem _ hx))
    rcases h1 e (List.mem_cons_self _ _) with hp | hft
    · have hok := h2 e (List.mem_cons_self _ _) hp
      cases hpo : world.pingOutcome e with
      | error m => rw [hpo] at hok; simp [Except.toOption] at hok
      | ok pr =>
        refine ⟨{ name := e.name
                  type := e.type
                  target := e.target
                  status := if pr.alive then "Healthy" else "Unhealthy"
                  error := if pr.packetLoss = "100.000" ∨ pr.packetLoss = "unknown"
                           then some (if pr.output = ""
                                      then e.target ++ " - Unknown"
                                      else pr.output)
                           else none } :: rs, ?_, ?_⟩
        · simp [processEndpoints, hp, hpo, pingExternalDependency_ok, hrs]
        · exact List.Forall₂.cons ⟨rfl, rfl, rfl⟩ hf
    · refine ⟨fetchExternalDependency e (world.fetchOutcome e) :: rs, ?_, ?_⟩
      · have hp : e.type ≠ "ping" := by rw [hft]; decide
        simp only [processEndpoints, if_neg hp, if_pos hft, hrs]
      · exact List.Forall₂.cons ⟨rfl, rfl, rfl⟩ hf

/-- Claim C4: for an input list all of whose types are `"ping"` or
`"fetch"` (and whose ping probes resolve, since an uncaught probe rejection
aborts the whole run), the output list exists, has the same length, and its
i-th record carries the i-th input endpoint's `name`, `type` and `target` —
order preserved. -/
theorem c4_order_and_fields_preserved (world : World) (eps : List Endpoint)
    (h1 : ∀ e ∈ eps, e.type = "ping" ∨ e.type = "fetch")
    (h2 : ∀ e ∈ eps, e.type = "ping" → (world.pingOutcome e).toOption.isSome = true) :
    ∃ rs, listExternalDependencyDetails world (some eps) = Except.ok rs ∧
      rs.length = eps.length ∧
      ∀ (i : Nat) (he : i < eps.length) (hr : i < rs.length),
        (rs.get ⟨i, hr⟩).name = (eps.get ⟨i, he⟩).name ∧
        (rs.get ⟨i, hr⟩).type = (eps.get ⟨i, he⟩).type ∧
        (rs.get ⟨i, hr⟩).target = (eps.get ⟨i, he⟩).target := by
  obtain ⟨rs, hrs, hf⟩ := processEndpoints_forall2 world eps h1 h2
  refine ⟨rs, hrs, hf.length_eq.symm, ?_⟩
  intro i he hr
  exact (List.forall₂_iff_get.mp hf).2 i he hr

/-- Claim C4 witness: a two-endpoint run (one ping, one fetch) yields two
records matching the inputs positionally. -/
theorem c4_witness :
    ∃ rs, listExternalDependencyDetails sampleWorld
        (some [⟨"A", "ping", "10.0.0.1"⟩, ⟨"B", "fetch", "http://b.example"⟩])
      = Except.ok rs ∧
      rs.length
        = ([⟨"A", "ping", "10.0.0.1"⟩, ⟨"B", "fetch", "http://b.example"⟩] :
            List Endpoint).length ∧
      ∀ (i : Nat)
        (he : i < ([⟨"A", "ping", "10.0.0.1"⟩, ⟨"B", "fetch", "http://b.example"⟩] :
            List Endpoint).length)
        (hr : i < rs.length),
        (rs.get ⟨i, hr⟩).name
          = (([⟨"A", "ping", "10.0.0.1"⟩, ⟨"B", "fetch", "http://b.example"⟩] :
              List Endpoint).get ⟨i, he⟩).name ∧
        (rs.get ⟨i, hr⟩).type
          = (([⟨"A", "ping", "10.0.0.1"⟩, ⟨"B", "fetch", "http://b.example"⟩] :
              List Endpoint).get ⟨i, he⟩).type ∧
        (rs.get ⟨i, hr⟩).target
          = (([⟨"A", "ping", "10.0.0.1"⟩, ⟨"B", "fetch", "http://b.example"⟩] :
              List Endpoint).get ⟨i, he⟩).target :=
  c4_order_and_fields_preserved sampleWorld
    [⟨"A", "ping", "10.0.0.1"⟩, ⟨"B", "fetch", "http://b.example"⟩]
    (by decide) (by decide)
